import Mathlib

/-!
Shallow embedding of the weather-analysis dashboard frontend
(src/src/AnalysisDashboard.jsx).

Pure helpers (`getTempChartData`, `formatKpiData`, `getJobStats`,
`getStatusColor`) are translated directly.  The React component state
(`useState` hooks) becomes the record `DashState`; each event handler
becomes a function from `DashState` to `DashState`, with the outcome of
every awaited network call passed in as an explicit `Except` parameter
(the environment chooses it), and the set of network calls the handler
issues returned as an explicit trace.  JavaScript truthiness on optional
string/number fields is modelled explicitly (`jsOr`, zero and the empty
string are falsy).  `Number(x).toFixed(2)` is modelled as rounding a
rational to two decimal places.
-/

namespace Dashboard

/-- Colour constant `PRIMARY_COLOR` from the source. -/
def PRIMARY_COLOR : String := "#107a8b"

/-- Colour constant `ACCENT_COLOR` from the source. -/
def ACCENT_COLOR : String := "#0a3d62"

/-- Colour constant `SUCCESS_COLOR` from the source. -/
def SUCCESS_COLOR : String := "#169950"

/-- Colour constant `FAILURE_COLOR` from the source. -/
def FAILURE_COLOR : String := "#d9534f"

/-- JavaScript `a || d` on an optional string `a`: the default wins
when the field is absent or the empty string (falsy). -/
def jsOr (v : Option String) (d : String) : String :=
  match v with
  | some s => if s = "" then d else s
  | none => d

/-- One entry of `results.time_series_data`. -/
structure TimeSeriesItem where
  date : String
  mean_temp_C : ℚ
  deriving DecidableEq, Repr

/-- The `regression_analysis` sub-object of a results payload.
`temp_humidity_r2` may be absent. -/
structure RegressionAnalysis where
  temp_humidity_r2 : Option ℚ
  deriving DecidableEq, Repr

/-- An analysis-results payload, restricted to the fields the component
reads: `report_summary`, `regression_analysis.temp_humidity_r2` and
`time_series_data`. -/
structure ResultsPayload where
  report_summary : Option String
  regression_analysis : Option RegressionAnalysis
  time_series_data : Option (List TimeSeriesItem)
  deriving DecidableEq, Repr

/-- One point of the temperature chart produced by `getTempChartData`. -/
structure ChartPoint where
  date : String
  temperature : ℚ
  deriving DecidableEq, Repr

/-- Model of JavaScript `Number(x).toFixed(2)`: round to two decimal
places (the string/float formatting itself is abstracted to the rounded
rational value). -/
def toFixed2 (q : ℚ) : ℚ := (round (q * 100) : ℚ) / 100

/-- `getTempChartData` (source lines 66-74): empty list when the
`time_series_data` field is absent or empty, otherwise a pointwise map
keeping the date and rounding `mean_temp_C` to two decimals. -/
def getTempChartData (results : Option ResultsPayload) : List ChartPoint :=
  match results.bind (fun r => r.time_series_data) with
  | none => []
  | some l =>
      if l.length = 0 then []
      else l.map (fun item => { date := item.date, temperature := toFixed2 item.mean_temp_C })

/-- The value slot of a KPI card: the source stores either the raw
field value (a string or a number) or a string sentinel. -/
inductive KpiValue where
  | str (s : String)
  | num (q : ℚ)
  deriving DecidableEq, Repr

/-- One KPI card tuple produced by `formatKpiData`. -/
structure Kpi where
  label : String
  value : KpiValue
  color : String
  isSummary : Bool
  deriving DecidableEq, Repr

/-- JavaScript `results?.report_summary || 'Analysis summary is not available.'`:
the fallback wins when the payload or the field is absent, or the field
is the empty string. -/
def summaryValue (results : Option ResultsPayload) : KpiValue :=
  match results.bind (fun r => r.report_summary) with
  | some s => if s = "" then KpiValue.str "Analysis summary is not available." else KpiValue.str s
  | none => KpiValue.str "Analysis summary is not available."

/-- JavaScript `results?.regression_analysis?.temp_humidity_r2 || 'N/A'`:
the sentinel wins when any link of the chain is absent or the number is
0 (falsy). -/
def r2Value (results : Option ResultsPayload) : KpiValue :=
  match (results.bind (fun r => r.regression_analysis)).bind (fun ra => ra.temp_humidity_r2) with
  | some q => if q = 0 then KpiValue.str "N/A" else KpiValue.num q
  | none => KpiValue.str "N/A"

/-- `formatKpiData` (source lines 76-88): the fixed two-card sequence,
summary card first, correlation card second. -/
def formatKpiData (results : Option ResultsPayload) : List Kpi :=
  [ { label := "REPORT SUMMARY",
      value := summaryValue results,
      color := PRIMARY_COLOR,
      isSummary := true },
    { label := "TEMP VS HUMIDITY CORRELATION (R²)",
      value := r2Value results,
      color := SUCCESS_COLOR,
      isSummary := false } ]

/-- One entry of the job list fetched from `job-statuses/`. -/
structure JobEntry where
  job_id : String
  status : String
  timestamp : Option Int
  deriving DecidableEq, Repr

/-- The counter record built by `getJobStats`. -/
structure JobStats where
  SUCCESS : Nat
  FAILURE : Nat
  PENDING : Nat
  RUNNING : Nat
  total : Nat
  deriving DecidableEq, Repr

/-- The per-job branch of `getJobStats` (source lines 140-150):
increments exactly one counter for a recognised status, none otherwise. -/
def statsStep (st : JobStats) (job : JobEntry) : JobStats :=
  if job.status = "SUCCESS" ∨ job.status = "COMPLETED" then
    { st with SUCCESS := st.SUCCESS + 1 }
  else if job.status = "FAILURE" ∨ job.status = "FAILED" then
    { st with FAILURE := st.FAILURE + 1 }
  else if job.status = "PENDING" then
    { st with PENDING := st.PENDING + 1 }
  else if job.status = "RUNNING" ∨ job.status = "STARTED" then
    { st with RUNNING := st.RUNNING + 1 }
  else st

/-- `getJobStats` (source lines 131-153), as a function of the job list
it closes over: fold of `statsStep` over the list, with `total` fixed to
the list length up front. -/
def getJobStats (pastJobs : List JobEntry) : JobStats :=
  pastJobs.foldl statsStep
    { SUCCESS := 0, FAILURE := 0, PENDING := 0, RUNNING := 0, total := pastJobs.length }

/-- Contiguous-subsequence containment on character lists: `pat` occurs
somewhere in the list. -/
def hasInfix (pat : List Char) : List Char → Bool
  | [] => pat.isEmpty
  | c :: tl => pat.isPrefixOf (c :: tl) || hasInfix pat tl

/-- JavaScript `s.includes("FAIL")` as substring containment on the
character list. -/
def containsFAIL (s : String) : Bool := hasInfix "FAIL".toList s.toList

/-- `getStatusColor` (source lines 156-160): success colour for
`SUCCESS`/`COMPLETED`, failure colour for any string containing `FAIL`,
default primary colour otherwise.  (The source's second disjunct
`includes('FAILURE')` is subsumed by `includes('FAIL')` and kept here.) -/
def getStatusColor (currentStatus : String) : String :=
  if currentStatus = "SUCCESS" ∨ currentStatus = "COMPLETED" then SUCCESS_COLOR
  else if containsFAIL currentStatus ∨ hasInfix "FAILURE".toList currentStatus.toList then
    FAILURE_COLOR
  else PRIMARY_COLOR

/-- The phase normalisation implicit in the status-categorisation
branches of `getJobStats` (source lines 140-150): the spec's
`classify(...).phase`.  A status that matches no branch passes through
as its own phase label. -/
def classifyPhase (s : String) : String :=
  if s = "SUCCESS" ∨ s = "COMPLETED" then "SUCCESS"
  else if s = "FAILURE" ∨ s = "FAILED" then "FAILURE"
  else if s = "PENDING" then "PENDING"
  else if s = "RUNNING" ∨ s = "STARTED" then "RUNNING"
  else s

/-- The spec's status classifier `classify(raw) -> {phase, colorClass}`:
the phase mapping of `getJobStats` paired with the colour mapping of
`getStatusColor`. -/
def classify (s : String) : String × String := (classifyPhase s, getStatusColor s)

/-- A status string matching one of the seven recognised backend
vocabulary words of `getJobStats`. -/
def recognizedStatus (s : String) : Bool :=
  s = "SUCCESS" || s = "COMPLETED" || s = "FAILURE" || s = "FAILED" ||
  s = "PENDING" || s = "RUNNING" || s = "STARTED"

/-! ## Controller state and async handlers -/

/-- The component's `useState` hooks as one record. -/
structure DashState where
  file : Option String
  jobId : Option String
  status : String
  results : Option ResultsPayload
  message : String
  pastJobs : List JobEntry
  selectedJobId : Option String
  isLoadingJobs : Bool
  deleteDialogOpen : Bool
  jobToDelete : Option String
  isDeleting : Bool
  deriving DecidableEq, Repr

/-- The initial state of the hooks at mount. -/
def initialState : DashState :=
  { file := none
    jobId := none
    status := "IDLE"
    results := none
    message := "Select a data file (CSV/XLSX) and click Analyze."
    pastJobs := []
    selectedJobId := none
    isLoadingJobs := false
    deleteDialogOpen := false
    jobToDelete := none
    isDeleting := false }

/-- A network request issued by a handler. -/
inductive ApiCall where
  | uploadCall
  | statusFetch (jobId : String)
  | listFetch (showLoading : Bool)
  | deleteCall (jobId : String)
  deriving DecidableEq, Repr

/-- A toast notification emitted by a handler. -/
inductive Toast where
  | success (msg : String)
  | error (msg : String)
  deriving DecidableEq, Repr

/-- The result of running a handler: the new state, the network calls it
issued, and the toasts it showed. -/
structure HandlerResult where
  state : DashState
  calls : List ApiCall
  toasts : List Toast
  deriving DecidableEq, Repr

/-- An axios error as the handlers read it: `error.message` and the
optional structured `error.response.data.error`. -/
structure ErrInfo where
  message : String
  responseError : Option String
  deriving DecidableEq, Repr

/-- JavaScript `error.response?.data?.error || error.message`. -/
def errText (e : ErrInfo) : String := jsOr e.responseError e.message

/-- The response body of `GET status/{id}/`. -/
structure StatusResponse where
  status : String
  results : Option ResultsPayload
  error : Option String
  deriving DecidableEq, Repr

/-- The response body of `POST upload/`. -/
structure UploadResponse where
  job_id : String
  status : String
  message : String
  from_cache : Option Bool
  results : Option ResultsPayload
  deriving DecidableEq, Repr

/-- First half of `fetchJobStatuses` (source line 244), up to the await:
sets the loading flag when `showLoading` was passed. -/
def fetchJobStatusesStart (showLoading : Bool) (s : DashState) : DashState :=
  if showLoading then { s with isLoadingJobs := true } else s

/-- Second half of `fetchJobStatuses` (source lines 245-252): on a
successful fetch, replaces `pastJobs` wholesale; on an error, only
logs; the `finally` clears the loading flag when `showLoading`. -/
def fetchJobStatusesFinish (showLoading : Bool) (outcome : Except Unit (List JobEntry))
    (s : DashState) : DashState :=
  let s1 :=
    match outcome with
    | Except.ok jobs => { s with pastJobs := jobs }
    | Except.error _ => s
  if showLoading then { s1 with isLoadingJobs := false } else s1

/-- `fetchJobStatuses` (source lines 243-253) run to completion with a
given fetch outcome. -/
def fetchJobStatuses (showLoading : Bool) (outcome : Except Unit (List JobEntry))
    (s : DashState) : DashState :=
  fetchJobStatusesFinish showLoading outcome (fetchJobStatusesStart showLoading s)

/-- The response continuation of `fetchFinalResult` (source lines
174-186), with `currentJobId` the argument captured by the closure.
Runs against whatever the component state is when the response
arrives. -/
def fetchFinalResultOnResponse (currentJobId : String) (data : StatusResponse)
    (s : DashState) : DashState :=
  let s1 := { s with status := data.status }
  if data.status = "SUCCESS" ∧ data.results.isSome then
    { s1 with results := data.results
              message := "Analysis completed successfully! Results displayed." }
  else if data.status = "FAILURE" then
    { s1 with message := "Analysis failed: " ++ jsOr data.error "Unknown error"
              results := none }
  else
    { s1 with message := "Job ID " ++ currentJobId.take 10 ++ "... status: " ++ data.status ++
                         ". This state should be short-lived." }

/-- The catch branch of `fetchFinalResult` (source lines 188-191). -/
def fetchFinalResultOnError (e : ErrInfo) (s : DashState) : DashState :=
  { s with status := "FAILED"
           message := "Error during result fetch: " ++ errText e ++ "." }

/-- `fetchFinalResult` (source lines 171-195) run to completion in one
step: the response or error continuation, then the `finally` list
refresh with its own outcome. -/
def fetchFinalResultRun (currentJobId : String) (outcome : Except ErrInfo StatusResponse)
    (refreshOutcome : Except Unit (List JobEntry)) (s : DashState) : DashState :=
  let s1 :=
    match outcome with
    | Except.ok data => fetchFinalResultOnResponse currentJobId data s
    | Except.error e => fetchFinalResultOnError e s
  fetchJobStatuses false refreshOutcome s1

/-- `handleJobSelect` (source lines 255-267): synchronous part only.
Returns the new state together with the status fetch it issues when the
known status is terminal-success. -/
def handleJobSelect (id currentStatus : String) (s : DashState) :
    DashState × List ApiCall :=
  let s1 := { s with selectedJobId := some id, jobId := some id, results := none
                     status := currentStatus }
  if currentStatus = "SUCCESS" ∨ currentStatus = "COMPLETED" then
    ({ s1 with message := "Fetching completed results for Job ID: " ++ id.take 10 ++ "..." },
     [ApiCall.statusFetch id])
  else
    ({ s1 with message := "Job ID " ++ id.take 10 ++ "... is currently " ++ currentStatus ++
                          ". Status list will update automatically." },
     [])

/-- The cache-hit toast text shown by `handleUpload`. -/
def cacheToastMsg : String := "📋 File already analyzed! Results loaded from cache."

/-- `handleUpload` (source lines 197-241) run to completion.  The
outcomes of the awaited calls are parameters: the upload itself, then —
only reached on the non-cache path — the single follow-up status fetch
(`statusOutcome`) and the list refresh inside its `finally`
(`innerRefresh`), and finally the trailing `fetchJobStatuses()`
(`tailRefresh`), which runs on every path after the upload response. -/
def handleUpload (upOutcome : Except ErrInfo UploadResponse)
    (statusOutcome : Except ErrInfo StatusResponse)
    (innerRefresh tailRefresh : Except Unit (List JobEntry))
    (s : DashState) : HandlerResult :=
  match s.file with
  | none => { state := s, calls := [], toasts := [] }
  | some fname =>
    let s1 := { s with status := "UPLOADING"
                       message := "Uploading " ++ fname ++ " to backend..." }
    match upOutcome with
    | Except.ok u =>
      let s2 := { s1 with jobId := some u.job_id, selectedJobId := some u.job_id
                          status := u.status, message := u.message }
      if u.from_cache = some true then
        let s3 := { s2 with results := u.results }
        { state := fetchJobStatuses false tailRefresh s3
          calls := [ApiCall.uploadCall, ApiCall.listFetch false]
          toasts := [Toast.success cacheToastMsg] }
      else
        let s3 := { s2 with results := none }
        let s4 := fetchFinalResultRun u.job_id statusOutcome innerRefresh s3
        { state := fetchJobStatuses false tailRefresh s4
          calls := [ApiCall.uploadCall, ApiCall.statusFetch u.job_id,
                    ApiCall.listFetch false, ApiCall.listFetch false]
          toasts := [] }
    | Except.error e =>
      let s2 := { s1 with status := "FAILED"
                          message := "Upload failed: " ++
                            jsOr e.responseError (jsOr (some e.message) "Network error") }
      { state := fetchJobStatuses false tailRefresh s2
        calls := [ApiCall.uploadCall, ApiCall.listFetch false]
        toasts := [] }

/-- The `finally` of `handleDeleteConfirm` (source lines 311-315). -/
def clearDeleteFlags (s : DashState) : DashState :=
  { s with isDeleting := false, deleteDialogOpen := false, jobToDelete := none }

/-- `handleDeleteConfirm` (source lines 275-316) run to completion.
On delete success: success toast, reset of the focused view when the
deleted job was the focused one, then an awaited `fetchJobStatuses()`
whose outcome is `refreshOutcome`.  On delete failure: error toast
only.  The `finally` clears the busy flag, the dialog and
`jobToDelete` on both paths. -/
def handleDeleteConfirm (deleteOutcome : Except ErrInfo Unit)
    (refreshOutcome : Except Unit (List JobEntry)) (s : DashState) : HandlerResult :=
  match s.jobToDelete with
  | none => { state := s, calls := [], toasts := [] }
  | some target =>
    let s1 := { s with isDeleting := true }
    match deleteOutcome with
    | Except.ok _ =>
      let s2 :=
        if s1.selectedJobId = some target then
          { s1 with selectedJobId := none, jobId := none, results := none
                    status := "IDLE"
                    message := "Select a data file (CSV/XLSX) and click Analyze." }
        else s1
      let s3 := fetchJobStatuses false refreshOutcome s2
      { state := clearDeleteFlags s3
        calls := [ApiCall.deleteCall target, ApiCall.listFetch false]
        toasts := [Toast.success "Job deleted successfully!"] }
    | Except.error e =>
      { state := clearDeleteFlags s1
        calls := [ApiCall.deleteCall target]
        toasts := [Toast.error ("Failed to delete job: " ++ errText e)] }

/-- The four category counters of a `JobStats` record added up. -/
def sumFour (st : JobStats) : Nat := st.SUCCESS + st.FAILURE + st.PENDING + st.RUNNING

/-! ## Concrete sample data used to instantiate the theorems -/

/-- A job entry carrying a status outside the recognised vocabulary. -/
def demoJob : JobEntry := { job_id := "job-demo", status := "WEIRD", timestamp := some 100 }

/-- A dashboard state holding one unrecognised-status job. -/
def demoState : DashState := { initialState with pastJobs := [demoJob] }

/-- A results payload standing for job A's analysis output. -/
def resultA : ResultsPayload :=
  { report_summary := some "Job A summary", regression_analysis := none, time_series_data := none }

/-- A results payload carried inside a cache-hit upload response. -/
def cacheResults : ResultsPayload :=
  { report_summary := some "cached", regression_analysis := none, time_series_data := none }

/-- A cache-hit upload response whose immediate status is not a success
word. -/
def uploadCacheResp : UploadResponse :=
  { job_id := "job-cached01", status := "PENDING", message := "Result loaded from cache."
    from_cache := some true, results := some cacheResults }

/-- A cache-hit upload response whose immediate status is `SUCCESS`. -/
def uploadCacheRespOk : UploadResponse :=
  { job_id := "job-cached02", status := "SUCCESS", message := "Result loaded from cache."
    from_cache := some true, results := some cacheResults }

/-- A dashboard state with a file picked, ready for `handleUpload`. -/
def uploadDemoState : DashState := { initialState with file := some "data.csv" }

/-- A job entry that is about to be deleted. -/
def jobA : JobEntry := { job_id := "job-a", status := "SUCCESS", timestamp := some 1 }

/-- A state focused on `jobA` with its deletion pending and confirmed. -/
def deleteDemoState : DashState :=
  { initialState with pastJobs := [jobA], jobToDelete := some "job-a"
                      selectedJobId := some "job-a", jobId := some "job-a"
                      deleteDialogOpen := true }

/-- One time-series sample point. -/
def tsItem : TimeSeriesItem := { date := "2024-01-01", mean_temp_C := 21/2 }

/-- A results payload with a one-point time series and no summary. -/
def tsPayload : ResultsPayload :=
  { report_summary := none, regression_analysis := none, time_series_data := some [tsItem] }

/-- A results payload whose correlation coefficient is exactly 0. -/
def zeroR2Payload : ResultsPayload :=
  { report_summary := some "ok", regression_analysis := some { temp_humidity_r2 := some 0 }
    time_series_data := none }

/-- A results payload whose report summary is the empty string. -/
def emptySummaryPayload : ResultsPayload :=
  { report_summary := some "", regression_analysis := none, time_series_data := none }

/-! ## Theorems -/

/-- C1 counterexample: on a payload with no summary field, the summary
slot (the first tuple) of `formatKpiData` carries the fallback text
"Analysis summary is not available.", not the literal string "N/A"
(that sentinel appears only in the correlation slot). -/
theorem formatKpiData_summary_slot_not_NA :
    (formatKpiData none).map Kpi.value =
      [KpiValue.str "Analysis summary is not available.", KpiValue.str "N/A"] ∧
    KpiValue.str "Analysis summary is not available." ≠ KpiValue.str "N/A" := by
  exact ⟨rfl, by decide⟩

/-- C1 (amended): for every result payload in which the summary field is
missing, `formatKpiData` returns its two-tuple sequence with the
fallback text "Analysis summary is not available." as the value of the
summary slot (the "N/A" sentinel is used for the correlation slot), and
the call never throws (the function is total, always producing exactly
two tuples). -/
theorem formatKpiData_missing_summary (results : Option ResultsPayload)
    (h : results.bind (fun r => r.report_summary) = none) :
    (formatKpiData results).map Kpi.value =
      [KpiValue.str "Analysis summary is not available.", r2Value results] ∧
    (formatKpiData results).length = 2 := by
  refine ⟨?_, rfl⟩
  simp [formatKpiData, summaryValue, h]

/-- Witness for the amended C1, at the absent payload. -/
theorem formatKpiData_missing_summary_witness :
    (formatKpiData none).map Kpi.value =
      [KpiValue.str "Analysis summary is not available.", r2Value none] ∧
    (formatKpiData none).length = 2 :=
  formatKpiData_missing_summary none rfl

/-- C9: both KPI slots use JavaScript truthiness rather than a presence
check: a present-but-zero `regression_analysis.temp_humidity_r2`
renders the correlation slot as the string "N/A" instead of the value
0, and a present-but-empty `report_summary` is replaced by the fallback
summary text. -/
theorem formatKpiData_falsy_fields (r rb : ResultsPayload) (ra : RegressionAnalysis)
    (hra : r.regression_analysis = some ra) (h0 : ra.temp_humidity_r2 = some 0)
    (hs : rb.report_summary = some "") :
    (formatKpiData (some r)).map Kpi.value =
      [summaryValue (some r), KpiValue.str "N/A"] ∧
    (formatKpiData (some rb)).map Kpi.value =
      [KpiValue.str "Analysis summary is not available.", r2Value (some rb)] := by
  constructor
  · simp [formatKpiData, r2Value, hra, h0]
  · simp [formatKpiData, summaryValue, hs]

/-- Witness for C9, at a zero-coefficient payload and an empty-summary
payload. -/
theorem formatKpiData_falsy_fields_witness :
    (formatKpiData (some zeroR2Payload)).map Kpi.value =
      [summaryValue (some zeroR2Payload), KpiValue.str "N/A"] ∧
    (formatKpiData (some emptySummaryPayload)).map Kpi.value =
      [KpiValue.str "Analysis summary is not available.",
       r2Value (some emptySummaryPayload)] :=
  formatKpiData_falsy_fields zeroR2Payload emptySummaryPayload
    { temp_humidity_r2 := some 0 } rfl rfl rfl

/-- C6: `getTempChartData` returns the empty sequence when the
time-series field is absent or empty; on a non-empty series it is the
pointwise image keeping the source order, so the output length equals
the input length, the dates appear in source order, and each output
temperature is the input `mean_temp_C` rounded to two decimals. -/
theorem getTempChartData_spec (results : Option ResultsPayload) :
    (results.bind (fun r => r.time_series_data) = none → getTempChartData results = []) ∧
    (results.bind (fun r => r.time_series_data) = some [] → getTempChartData results = []) ∧
    (∀ l, results.bind (fun r => r.time_series_data) = some l →
      getTempChartData results =
        l.map (fun item => { date := item.date, temperature := toFixed2 item.mean_temp_C }) ∧
      (getTempChartData results).length = l.length ∧
      (getTempChartData results).map ChartPoint.date = l.map TimeSeriesItem.date) := by
  refine ⟨fun h => by simp [getTempChartData, h],
          fun h => by simp [getTempChartData, h],
          fun l h => ?_⟩
  have hg : getTempChartData results =
      if l.length = 0 then []
      else l.map (fun item => { date := item.date, temperature := toFixed2 item.mean_temp_C }) := by
    simp [getTempChartData, h]
  by_cases hl : l = []
  · subst hl
    simp at hg
    simp [hg]
  · rw [hg, if_neg (by simpa using hl)]
    refine ⟨rfl, by simp, ?_⟩
    simp [List.map_map, Function.comp]

/-- Witness for C6, at a one-point time series. -/
theorem getTempChartData_spec_witness :
    getTempChartData (some tsPayload) =
      [{ date := tsItem.date, temperature := toFixed2 tsItem.mean_temp_C }] ∧
    (getTempChartData (some tsPayload)).length = 1 ∧
    (getTempChartData (some tsPayload)).map ChartPoint.date = ["2024-01-01"] := by
  have h := (getTempChartData_spec (some tsPayload)).2.2 [tsItem] rfl
  refine ⟨by simpa using h.1, h.2.1, by simpa using h.2.2⟩

/-- Helper: an occurrence of `p ++ q` in a list yields an occurrence of
`p`. -/
theorem hasInfix_append_left (p q : List Char) :
    ∀ l : List Char, hasInfix (p ++ q) l = true → hasInfix p l = true := by
  intro l
  induction l with
  | nil =>
      simp [hasInfix, List.isEmpty_iff]
      intro hp _
      exact hp
  | cons c tl ih =>
      simp only [hasInfix, Bool.or_eq_true]
      rintro (h | h)
      · left
        rw [List.isPrefixOf_iff_prefix] at h ⊢
        exact (List.prefix_append p q).trans h
      · right
        exact ih h

/-- C7 counterexample: the string "FAILING" contains `FAIL`, yet the
classifier does not map it to the `FAILURE` phase — it passes through
as its own phase label while nevertheless receiving the failure colour
rather than the default one, so both the contains-FAIL-implies-failure-
phase conjunct and the unrecognised-implies-default-colour conjunct of
the claim fail on it. -/
theorem classify_FAILING_counterexample :
    containsFAIL "FAILING" = true ∧
    recognizedStatus "FAILING" = false ∧
    (classify "FAILING").1 = "FAILING" ∧
    (classify "FAILING").1 ≠ "FAILURE" ∧
    (classify "FAILING").2 = FAILURE_COLOR ∧
    FAILURE_COLOR ≠ PRIMARY_COLOR := by
  refine ⟨by decide, by decide, rfl, by decide, rfl, by decide⟩

/-- C7 (amended): the classifier is total over strings and idempotent:
`classify (classify x).phase = classify x` for every string `x` (in
particular for each canonical phase it outputs).  `SUCCESS` and
`COMPLETED` map to the success phase and colour; exactly `FAILURE` or
`FAILED` map to the `FAILURE` phase, while any string containing `FAIL`
receives the failure colour; `PENDING` maps to `PENDING` and `RUNNING`
or `STARTED` to `RUNNING`, with the default colour; any unrecognised
string passes through as its own phase and receives the default
neutral colour unless it contains `FAIL`, in which case it is coloured
with the failure colour. -/
theorem classify_spec :
    (∀ x, classify (classify x).1 = classify x) ∧
    classify "SUCCESS" = ("SUCCESS", SUCCESS_COLOR) ∧
    classify "COMPLETED" = ("SUCCESS", SUCCESS_COLOR) ∧
    classify "FAILURE" = ("FAILURE", FAILURE_COLOR) ∧
    classify "FAILED" = ("FAILURE", FAILURE_COLOR) ∧
    classify "PENDING" = ("PENDING", PRIMARY_COLOR) ∧
    classify "RUNNING" = ("RUNNING", PRIMARY_COLOR) ∧
    classify "STARTED" = ("RUNNING", PRIMARY_COLOR) ∧
    (∀ x, containsFAIL x = true → (classify x).2 = FAILURE_COLOR) ∧
    (∀ x, recognizedStatus x = false → (classify x).1 = x) ∧
    (∀ x, recognizedStatus x = false → containsFAIL x = false →
      (classify x).2 = PRIMARY_COLOR) := by
  refine ⟨?_, rfl, rfl, rfl, rfl, rfl, rfl, rfl, ?_, ?_, ?_⟩
  · intro x
    by_cases h1 : x = "SUCCESS" ∨ x = "COMPLETED"
    · rcases h1 with h | h <;> subst h <;> rfl
    · by_cases h2 : x = "FAILURE" ∨ x = "FAILED"
      · rcases h2 with h | h <;> subst h <;> rfl
      · by_cases h3 : x = "PENDING"
        · subst h3; rfl
        · by_cases h4 : x = "RUNNING" ∨ x = "STARTED"
          · rcases h4 with h | h <;> subst h <;> rfl
          · have hp : classifyPhase x = x := by
              unfold classifyPhase
              rw [if_neg h1, if_neg h2, if_neg h3, if_neg h4]
            have hfst : (classify x).1 = classifyPhase x := rfl
            rw [hfst, hp]
  · intro x hx
    have hne : ¬(x = "SUCCESS" ∨ x = "COMPLETED") := by
      rintro (h | h) <;> subst h <;> exact absurd hx (by decide)
    show getStatusColor x = FAILURE_COLOR
    unfold getStatusColor
    rw [if_neg hne, if_pos (Or.inl hx)]
  · intro x hr
    simp only [recognizedStatus, Bool.or_eq_false_iff, decide_eq_false_iff_not] at hr
    obtain ⟨⟨⟨⟨⟨⟨h1, h2⟩, h3⟩, h4⟩, h5⟩, h6⟩, h7⟩ := hr
    show classifyPhase x = x
    unfold classifyPhase
    rw [if_neg (by tauto), if_neg (by tauto), if_neg h5, if_neg (by tauto)]
  · intro x hr hf
    simp only [recognizedStatus, Bool.or_eq_false_iff, decide_eq_false_iff_not] at hr
    obtain ⟨⟨⟨⟨⟨⟨h1, h2⟩, h3⟩, h4⟩, h5⟩, h6⟩, h7⟩ := hr
    have hfailure : hasInfix "FAILURE".toList x.toList = false := by
      rcases hh : hasInfix "FAILURE".toList x.toList with _ | _
      · rfl
      · exfalso
        have : hasInfix "FAIL".toList x.toList = true := by
          have hsplit : "FAIL".toList ++ "URE".toList = "FAILURE".toList := by decide
          exact hasInfix_append_left _ _ _ (by rw [hsplit]; exact hh)
        rw [containsFAIL] at hf
        rw [this] at hf
        exact absurd hf (by decide)
    show getStatusColor x = PRIMARY_COLOR
    unfold getStatusColor
    rw [if_neg (by tauto), if_neg ?_]
    rintro (h | h)
    · rw [hf] at h
      exact absurd h (by decide)
    · rw [hfailure] at h
      exact absurd h (by decide)

/-- Witness for the amended C7, at the canonical-vocabulary strings and
the passthrough string "WEIRD". -/
theorem classify_spec_witness :
    classify (classify "WEIRD").1 = classify "WEIRD" ∧
    classify "COMPLETED" = ("SUCCESS", SUCCESS_COLOR) ∧
    (classify "FAILED").2 = FAILURE_COLOR ∧
    (classify "WEIRD").1 = "WEIRD" ∧
    (classify "WEIRD").2 = PRIMARY_COLOR :=
  ⟨classify_spec.1 "WEIRD", classify_spec.2.2.1,
   classify_spec.2.2.2.2.2.2.2.2.1 "FAILED" (by decide),
   classify_spec.2.2.2.2.2.2.2.2.2.1 "WEIRD" (by decide),
   classify_spec.2.2.2.2.2.2.2.2.2.2 "WEIRD" (by decide) (by decide)⟩

/-- Helper: one `statsStep` leaves the `total` field untouched. -/
theorem statsStep_total (st : JobStats) (j : JobEntry) :
    (statsStep st j).total = st.total := by
  unfold statsStep
  split_ifs <;> rfl

/-- Helper: one `statsStep` grows the category sum by one exactly on a
recognised status, by zero otherwise. -/
theorem statsStep_sum (st : JobStats) (j : JobEntry) :
    sumFour (statsStep st j) =
      sumFour st + (if recognizedStatus j.status = true then 1 else 0) := by
  by_cases h1 : j.status = "SUCCESS" ∨ j.status = "COMPLETED"
  · have hrec : recognizedStatus j.status = true := by
      rcases h1 with h | h <;> rw [h] <;> decide
    simp only [statsStep, if_pos h1, hrec]
    simp [sumFour]
    omega
  · by_cases h2 : j.status = "FAILURE" ∨ j.status = "FAILED"
    · have hrec : recognizedStatus j.status = true := by
        rcases h2 with h | h <;> rw [h] <;> decide
      simp only [statsStep, if_neg h1, if_pos h2, hrec]
      simp [sumFour]
      omega
    · by_cases h3 : j.status = "PENDING"
      · have hrec : recognizedStatus j.status = true := by
          rw [h3]
          decide
        simp only [statsStep, if_neg h1, if_neg h2, if_pos h3, hrec]
        simp [sumFour]
        omega
      · by_cases h4 : j.status = "RUNNING" ∨ j.status = "STARTED"
        · have hrec : recognizedStatus j.status = true := by
            rcases h4 with h | h <;> rw [h] <;> decide
          simp only [statsStep, if_neg h1, if_neg h2, if_neg h3, if_pos h4, hrec]
          simp [sumFour]
          omega
        · have hrec : recognizedStatus j.status = false := by
            simp only [recognizedStatus, Bool.or_eq_false_iff, decide_eq_false_iff_not]
            tauto
          simp only [statsStep, if_neg h1, if_neg h2, if_neg h3, if_neg h4, hrec]
          simp

/-- Helper: folding `statsStep` preserves `total`. -/
theorem foldl_statsStep_total (jobs : List JobEntry) :
    ∀ init : JobStats, (jobs.foldl statsStep init).total = init.total := by
  induction jobs with
  | nil => intro init; rfl
  | cons j tl ih =>
      intro init
      rw [List.foldl_cons, ih, statsStep_total]

/-- Helper: folding `statsStep` adds the count of recognised statuses to
the category sum. -/
theorem foldl_statsStep_sum (jobs : List JobEntry) :
    ∀ init : JobStats, sumFour (jobs.foldl statsStep init) =
      sumFour init + jobs.countP (fun j => recognizedStatus j.status) := by
  induction jobs with
  | nil => intro init; simp
  | cons j tl ih =>
      intro init
      rw [List.foldl_cons, ih, statsStep_sum, List.countP_cons]
      by_cases h : recognizedStatus j.status = true
      · simp [h]
        omega
      · simp [h]

/-- C10: for every job list, the four category counters of
`getJobStats` sum to at most `total`; `total` equals the list length;
and the inequality is strict exactly when the list holds a job whose
status is outside the recognised vocabulary — such a job is counted in
`total` but in no category counter. -/
theorem getJobStats_count_invariant (jobs : List JobEntry) :
    sumFour (getJobStats jobs) ≤ (getJobStats jobs).total ∧
    (getJobStats jobs).total = jobs.length ∧
    (sumFour (getJobStats jobs) < (getJobStats jobs).total ↔
      ∃ j ∈ jobs, recognizedStatus j.status = false) := by
  have htotal : (getJobStats jobs).total = jobs.length := by
    rw [getJobStats, foldl_statsStep_total]
  have hsum : sumFour (getJobStats jobs) =
      jobs.countP (fun j => recognizedStatus j.status) := by
    rw [getJobStats, foldl_statsStep_sum]
    simp [sumFour]
  have hle : jobs.countP (fun j => recognizedStatus j.status) ≤ jobs.length :=
    List.countP_le_length _
  refine ⟨by rw [hsum, htotal]; exact hle, htotal, ?_⟩
  rw [hsum, htotal]
  constructor
  · intro hlt
    by_contra hex
    push_neg at hex
    have hall : ∀ j ∈ jobs, recognizedStatus j.status = true := by
      intro j hj
      rcases hb : recognizedStatus j.status with _ | _
      · exact absurd hb (hex j hj)
      · rfl
    have : jobs.countP (fun j => recognizedStatus j.status) = jobs.length :=
      List.countP_eq_length.mpr (fun j hj => hall j hj)
    omega
  · rintro ⟨j, hj, hfalse⟩
    rcases Nat.lt_or_ge (jobs.countP (fun j => recognizedStatus j.status)) jobs.length with h | h
    · exact h
    · exfalso
      have heq : jobs.countP (fun j => recognizedStatus j.status) = jobs.length :=
        Nat.le_antisymm hle h
      have := List.countP_eq_length.mp heq j hj
      rw [hfalse] at this
      exact absurd this (by decide)

/-- Witness for C10, at a two-job list with one unrecognised status. -/
theorem getJobStats_count_invariant_witness :
    sumFour (getJobStats [jobA, demoJob]) ≤ (getJobStats [jobA, demoJob]).total ∧
    (getJobStats [jobA, demoJob]).total = 2 ∧
    sumFour (getJobStats [jobA, demoJob]) < (getJobStats [jobA, demoJob]).total := by
  have h := getJobStats_count_invariant [jobA, demoJob]
  refine ⟨h.1, h.2.1, h.2.2.mpr ⟨demoJob, by decide, by decide⟩⟩

/-- C8: `fetchJobStatuses` catches every fetch failure internally (its
embedding is total: the caught error is the `Except.error` case), and a
failed fetch leaves the stored job collection unchanged; the focused
job's status, id and result are never touched on any outcome; a
successful fetch replaces the collection wholesale; and the
loading-indicator flag is set (at the start) and cleared (at the end)
exactly when the call was invoked with `showLoading`. -/
theorem fetchJobStatuses_spec (showLoading : Bool)
    (outcome : Except Unit (List JobEntry)) (s : DashState) :
    (∀ e, outcome = Except.error e →
      (fetchJobStatuses showLoading outcome s).pastJobs = s.pastJobs) ∧
    (fetchJobStatuses showLoading outcome s).status = s.status ∧
    (fetchJobStatuses showLoading outcome s).jobId = s.jobId ∧
    (fetchJobStatuses showLoading outcome s).results = s.results ∧
    (∀ jobs, outcome = Except.ok jobs →
      (fetchJobStatuses showLoading outcome s).pastJobs = jobs) ∧
    (showLoading = false →
      (fetchJobStatusesStart showLoading s).isLoadingJobs = s.isLoadingJobs ∧
      (fetchJobStatuses showLoading outcome s).isLoadingJobs = s.isLoadingJobs) ∧
    (showLoading = true →
      (fetchJobStatusesStart showLoading s).isLoadingJobs = true ∧
      (fetchJobStatuses showLoading outcome s).isLoadingJobs = false) := by
  cases outcome <;> cases showLoading <;>
    simp [fetchJobStatuses, fetchJobStatusesStart, fetchJobStatusesFinish]

/-- Witness for C8, at a failing silent refresh over a one-job list. -/
theorem fetchJobStatuses_spec_witness :
    (fetchJobStatuses false (Except.error ()) demoState).pastJobs = demoState.pastJobs ∧
    (fetchJobStatuses false (Except.error ()) demoState).status = demoState.status ∧
    (fetchJobStatuses false (Except.error ()) demoState).isLoadingJobs =
      demoState.isLoadingJobs :=
  ⟨(fetchJobStatuses_spec false (Except.error ()) demoState).1 () rfl,
   (fetchJobStatuses_spec false (Except.error ()) demoState).2.1,
   ((fetchJobStatuses_spec false (Except.error ()) demoState).2.2.2.2.2.1 rfl).2⟩

/-- C5: when the delete call fails, `handleDeleteConfirm` leaves the
focused job state and the job list unchanged, surfaces the error as an
error toast rather than a phase change, and on both the failure and the
success exit paths the `finally` clears `jobToDelete`, the dialog and
the `isDeleting` busy flag. -/
theorem handleDeleteConfirm_error_spec (s : DashState) (t : String)
    (h : s.jobToDelete = some t) (e : ErrInfo)
    (refreshOutcome : Except Unit (List JobEntry)) :
    ((handleDeleteConfirm (Except.error e) refreshOutcome s).state.pastJobs = s.pastJobs ∧
     (handleDeleteConfirm (Except.error e) refreshOutcome s).state.jobId = s.jobId ∧
     (handleDeleteConfirm (Except.error e) refreshOutcome s).state.selectedJobId =
       s.selectedJobId ∧
     (handleDeleteConfirm (Except.error e) refreshOutcome s).state.status = s.status ∧
     (handleDeleteConfirm (Except.error e) refreshOutcome s).state.results = s.results ∧
     (handleDeleteConfirm (Except.error e) refreshOutcome s).state.message = s.message ∧
     (handleDeleteConfirm (Except.error e) refreshOutcome s).toasts =
       [Toast.error ("Failed to delete job: " ++ errText e)] ∧
     (handleDeleteConfirm (Except.error e) refreshOutcome s).calls =
       [ApiCall.deleteCall t]) ∧
    ((handleDeleteConfirm (Except.error e) refreshOutcome s).state.jobToDelete = none ∧
     (handleDeleteConfirm (Except.error e) refreshOutcome s).state.isDeleting = false ∧
     (handleDeleteConfirm (Except.ok ()) refreshOutcome s).state.jobToDelete = none ∧
     (handleDeleteConfirm (Except.ok ()) refreshOutcome s).state.isDeleting = false) := by
  have hfail : handleDeleteConfirm (Except.error e) refreshOutcome s =
      { state := clearDeleteFlags { s with isDeleting := true }
        calls := [ApiCall.deleteCall t]
        toasts := [Toast.error ("Failed to delete job: " ++ errText e)] } := by
    rw [handleDeleteConfirm, h]
  have hokTo : (handleDeleteConfirm (Except.ok ()) refreshOutcome s).state.jobToDelete =
        none ∧
      (handleDeleteConfirm (Except.ok ()) refreshOutcome s).state.isDeleting = false := by
    rw [handleDeleteConfirm, h]
    exact ⟨rfl, rfl⟩
  rw [hfail]
  exact ⟨⟨rfl, rfl, rfl, rfl, rfl, rfl, rfl, rfl⟩, ⟨rfl, rfl, hokTo.1, hokTo.2⟩⟩

/-- Witness for C5, at a state focused on the job whose deletion fails
with a transport error. -/
theorem handleDeleteConfirm_error_spec_witness :
    (handleDeleteConfirm (Except.error { message := "Network Error", responseError := none })
        (Except.error ()) deleteDemoState).state.pastJobs = deleteDemoState.pastJobs ∧
    (handleDeleteConfirm (Except.error { message := "Network Error", responseError := none })
        (Except.error ()) deleteDemoState).state.jobToDelete = none :=
  ⟨(handleDeleteConfirm_error_spec deleteDemoState "job-a" rfl
      { message := "Network Error", responseError := none } (Except.error ())).1.1,
   (handleDeleteConfirm_error_spec deleteDemoState "job-a" rfl
      { message := "Network Error", responseError := none } (Except.error ())).2.1⟩

/-- C4 counterexample: a successful delete of the focused job whose
follow-up list refresh fails.  The success toast shows and the focus
resets to `IDLE`, but the job list still contains the deleted id: the
code never removes the entry locally — it only re-fetches the list
from the server — so the claim that the deleted id is removed locally
from the collection is false. -/
theorem handleDeleteConfirm_no_local_removal :
    (handleDeleteConfirm (Except.ok ()) (Except.error ()) deleteDemoState).toasts =
      [Toast.success "Job deleted successfully!"] ∧
    (handleDeleteConfirm (Except.ok ()) (Except.error ()) deleteDemoState).state.status =
      "IDLE" ∧
    (handleDeleteConfirm (Except.ok ()) (Except.error ()) deleteDemoState).state.jobToDelete =
      none ∧
    (handleDeleteConfirm (Except.ok ()) (Except.error ()) deleteDemoState).state.pastJobs =
      [jobA] ∧
    jobA.job_id = "job-a" ∧ deleteDemoState.jobToDelete = some "job-a" := by
  exact ⟨rfl, rfl, rfl, rfl, rfl, rfl⟩

/-- C4 (amended): for every successful `handleDeleteConfirm` on the
currently focused job, the focus resets to the `IDLE` initial state
(job id, result and message cleared), `jobToDelete` and the busy flag
are cleared, and the job list is not mutated locally but replaced
wholesale by the follow-up server refresh — so the deleted id is gone
from the list exactly when that refresh succeeds and the fetched list
omits it. -/
theorem handleDeleteConfirm_ok_spec (s : DashState) (t : String)
    (h : s.jobToDelete = some t) (hsel : s.selectedJobId = some t)
    (jobs : List JobEntry) :
    (handleDeleteConfirm (Except.ok ()) (Except.ok jobs) s).state.selectedJobId = none ∧
    (handleDeleteConfirm (Except.ok ()) (Except.ok jobs) s).state.jobId = none ∧
    (handleDeleteConfirm (Except.ok ()) (Except.ok jobs) s).state.results = none ∧
    (handleDeleteConfirm (Except.ok ()) (Except.ok jobs) s).state.status = "IDLE" ∧
    (handleDeleteConfirm (Except.ok ()) (Except.ok jobs) s).state.message =
      "Select a data file (CSV/XLSX) and click Analyze." ∧
    (handleDeleteConfirm (Except.ok ()) (Except.ok jobs) s).state.pastJobs = jobs ∧
    (handleDeleteConfirm (Except.ok ()) (Except.ok jobs) s).state.jobToDelete = none ∧
    (handleDeleteConfirm (Except.ok ()) (Except.ok jobs) s).state.isDeleting = false ∧
    ((∀ j ∈ (handleDeleteConfirm (Except.ok ()) (Except.ok jobs) s).state.pastJobs,
        j.job_id ≠ t) ↔ (∀ j ∈ jobs, j.job_id ≠ t)) := by
  rw [handleDeleteConfirm, h]
  simp [hsel, clearDeleteFlags, fetchJobStatuses, fetchJobStatusesStart,
        fetchJobStatusesFinish]

/-- Witness for the amended C4, at the focused-delete state with a
successful refresh returning the emptied list. -/
theorem handleDeleteConfirm_ok_spec_witness :
    (handleDeleteConfirm (Except.ok ()) (Except.ok []) deleteDemoState).state.status =
      "IDLE" ∧
    (handleDeleteConfirm (Except.ok ()) (Except.ok []) deleteDemoState).state.pastJobs =
      [] ∧
    (handleDeleteConfirm (Except.ok ()) (Except.ok []) deleteDemoState).state.jobToDelete =
      none :=
  ⟨(handleDeleteConfirm_ok_spec deleteDemoState "job-a" rfl rfl []).2.2.2.1,
   (handleDeleteConfirm_ok_spec deleteDemoState "job-a" rfl rfl []).2.2.2.2.2.1,
   (handleDeleteConfirm_ok_spec deleteDemoState "job-a" rfl rfl []).2.2.2.2.2.2.1⟩

/-- C3 counterexample: an upload response with `from_cache = true` and a
results payload but an immediate status of `PENDING`.  `handleUpload`
stores the carried results and skips the status fetch, but the focused
status becomes `PENDING`, not `SUCCESS`: the code adopts whatever
status the response carries instead of forcing the success phase. -/
theorem handleUpload_cache_not_forced_success :
    uploadCacheResp.from_cache = some true ∧
    uploadCacheResp.results.isSome = true ∧
    (handleUpload (Except.ok uploadCacheResp)
        (Except.error { message := "unused", responseError := none })
        (Except.error ()) (Except.ok []) uploadDemoState).state.status = "PENDING" ∧
    (handleUpload (Except.ok uploadCacheResp)
        (Except.error { message := "unused", responseError := none })
        (Except.error ()) (Except.ok []) uploadDemoState).state.status ≠ "SUCCESS" ∧
    classifyPhase (handleUpload (Except.ok uploadCacheResp)
        (Except.error { message := "unused", responseError := none })
        (Except.error ()) (Except.ok []) uploadDemoState).state.status ≠ "SUCCESS" := by
  refine ⟨rfl, rfl, rfl, by decide, by decide⟩

/-- C3 (amended): for every upload response with `from_cache = true`
(and whatever results payload it carries), `handleUpload` stores the
carried results directly as the focused result, sets the focused job id
to the response's job id, issues no status-fetch call (only the upload
and the trailing list refresh), and sets the focused status to the
status carried in the response — so the phase is `SUCCESS` exactly when
the backend's cache-hit response reports a success status, as the
backend contract prescribes. -/
theorem handleUpload_cache_spec (s : DashState) (f : String) (hf : s.file = some f)
    (u : UploadResponse) (hc : u.from_cache = some true)
    (stO : Except ErrInfo StatusResponse) (ir tr : Except Unit (List JobEntry)) :
    (handleUpload (Except.ok u) stO ir tr s).state.results = u.results ∧
    (handleUpload (Except.ok u) stO ir tr s).state.status = u.status ∧
    (handleUpload (Except.ok u) stO ir tr s).state.jobId = some u.job_id ∧
    (handleUpload (Except.ok u) stO ir tr s).state.selectedJobId = some u.job_id ∧
    (handleUpload (Except.ok u) stO ir tr s).calls =
      [ApiCall.uploadCall, ApiCall.listFetch false] ∧
    (∀ j, ApiCall.statusFetch j ∉ (handleUpload (Except.ok u) stO ir tr s).calls) ∧
    (u.status = "SUCCESS" ∨ u.status = "COMPLETED" →
      classifyPhase (handleUpload (Except.ok u) stO ir tr s).state.status = "SUCCESS") := by
  have hmain : handleUpload (Except.ok u) stO ir tr s =
      { state := fetchJobStatuses false tr
          { s with status := u.status
                   message := u.message
                   jobId := some u.job_id
                   selectedJobId := some u.job_id
                   results := u.results }
        calls := [ApiCall.uploadCall, ApiCall.listFetch false]
        toasts := [Toast.success cacheToastMsg] } := by
    rw [handleUpload, hf]
    simp [hc]
  rw [hmain]
  cases tr <;>
    simp [fetchJobStatuses, fetchJobStatusesStart, fetchJobStatusesFinish, classifyPhase] <;>
    rintro (h | h) <;> simp [h]

/-- Witness for the amended C3, at a cache-hit response reporting
status `SUCCESS`. -/
theorem handleUpload_cache_spec_witness :
    (handleUpload (Except.ok uploadCacheRespOk)
        (Except.error { message := "unused", responseError := none })
        (Except.error ()) (Except.ok []) uploadDemoState).state.results =
      uploadCacheRespOk.results ∧
    (handleUpload (Except.ok uploadCacheRespOk)
        (Except.error { message := "unused", responseError := none })
        (Except.error ()) (Except.ok []) uploadDemoState).state.status = "SUCCESS" ∧
    (∀ j, ApiCall.statusFetch j ∉ (handleUpload (Except.ok uploadCacheRespOk)
        (Except.error { message := "unused", responseError := none })
        (Except.error ()) (Except.ok []) uploadDemoState).calls) :=
  ⟨(handleUpload_cache_spec uploadDemoState "data.csv" rfl uploadCacheRespOk rfl
      (Except.error { message := "unused", responseError := none })
      (Except.error ()) (Except.ok [])).1,
   (handleUpload_cache_spec uploadDemoState "data.csv" rfl uploadCacheRespOk rfl
      (Except.error { message := "unused", responseError := none })
      (Except.error ()) (Except.ok [])).2.1,
   (handleUpload_cache_spec uploadDemoState "data.csv" rfl uploadCacheRespOk rfl
      (Except.error { message := "unused", responseError := none })
      (Except.error ()) (Except.ok [])).2.2.2.2.2.1⟩

/-- C2 (bug exhibit): the stale-response interleaving.  Job A
(terminal-success) is selected, which issues a status fetch for A;
before A's response arrives, job B (running) is selected — at that
point the displayed state is B's (`status = RUNNING`, no result).  When
A's response then runs, the closure updates the shared state
unconditionally: afterwards the focused id is still B, but the
displayed status is `SUCCESS` and the displayed result is A's payload.
The last-selected-wins property the spec demands does not hold. -/
theorem stale_response_overwrites_selection :
    ((handleJobSelect "job-aaaaaaaa" "SUCCESS" initialState).2 =
      [ApiCall.statusFetch "job-aaaaaaaa"]) ∧
    ((handleJobSelect "job-bbbbbbbb" "RUNNING"
        (handleJobSelect "job-aaaaaaaa" "SUCCESS" initialState).1).2 = []) ∧
    ((handleJobSelect "job-bbbbbbbb" "RUNNING"
        (handleJobSelect "job-aaaaaaaa" "SUCCESS" initialState).1).1.jobId =
      some "job-bbbbbbbb") ∧
    ((handleJobSelect "job-bbbbbbbb" "RUNNING"
        (handleJobSelect "job-aaaaaaaa" "SUCCESS" initialState).1).1.status =
      "RUNNING") ∧
    ((handleJobSelect "job-bbbbbbbb" "RUNNING"
        (handleJobSelect "job-aaaaaaaa" "SUCCESS" initialState).1).1.results = none) ∧
    ((fetchFinalResultOnResponse "job-aaaaaaaa"
        { status := "SUCCESS", results := some resultA, error := none }
        (handleJobSelect "job-bbbbbbbb" "RUNNING"
          (handleJobSelect "job-aaaaaaaa" "SUCCESS" initialState).1).1).jobId =
      some "job-bbbbbbbb") ∧
    ((fetchFinalResultOnResponse "job-aaaaaaaa"
        { status := "SUCCESS", results := some resultA, error := none }
        (handleJobSelect "job-bbbbbbbb" "RUNNING"
          (handleJobSelect "job-aaaaaaaa" "SUCCESS" initialState).1).1).status =
      "SUCCESS") ∧
    ((fetchFinalResultOnResponse "job-aaaaaaaa"
        { status := "SUCCESS", results := some resultA, error := none }
        (handleJobSelect "job-bbbbbbbb" "RUNNING"
          (handleJobSelect "job-aaaaaaaa" "SUCCESS" initialState).1).1).results =
      some resultA) := by
  refine ⟨rfl, rfl, rfl, rfl, rfl, rfl, ?_, ?_⟩ <;> rfl

end Dashboard
